import Mathlib

/-!
# Verification of the WhatsApp-bridge core of `Hammton/AI-employee`

Shallow embedding of the message ingestion / dedup / reply-delivery core of
`src/main.py`, together with theorems settling the specification claims.

Conventions of the embedding:

* The Python set `processed_messages` is modelled by a `List String` recording
  its mathematical content; the list order records insertion order for the sake
  of stating insertion-order properties.  A CPython `set` itself keeps *no*
  insertion order: `list(processed_messages)` enumerates the elements in an
  unspecified, hash-dependent order (randomized per-process for strings).  The
  trim expression `set(list(processed_messages)[-500:])` (src/main.py:808-810)
  therefore depends on that enumeration, which we model by an explicit
  enumeration argument constrained only to be a permutation of the contents.
* Python byte strings are modelled as `List Nat` (each entry one byte).
* Playwright DOM handles are modelled by a record of the attribute values and
  sub-element query results that the source code actually reads.
* Exceptions are modelled with `Except Unit`; external effects (the agent
  kernel, `page.evaluate`, temp-file creation, blob fetching) are parameters.
-/

namespace AIEmployee

/-! ## DedupStore (src/main.py:51, 784-810, 892-895)

`processed_messages = set()`; membership test plus `add` is the dedup check.
-/

/-- Embedding of the check-and-insert idiom used by both message paths:
`if msg_id not in processed_messages: processed_messages.add(msg_id)`
(src/main.py:784-785) and
`if msg_id in processed_messages: return False ... processed_messages.add(msg_id)`
(src/main.py:892-895).  Returns the `isNew` verdict and the updated store. -/
def isNew (store : List String) (t : String) : Bool × List String :=
  if t ∈ store then (false, store) else (true, store ++ [t])

/-- Run a sequence of identity-token observations through the dedup check,
starting from `store`, collecting each observation's `isNew` verdict.
No trim occurs in between (the spec's "prior to any trim event"). -/
def runObs (store : List String) : List String → List Bool
  | [] => []
  | t :: ts =>
    let r := isNew store t
    r.1 :: runObs r.2 ts

/-- Embedding of the trim expression `set(list(processed_messages)[-500:])`
(src/main.py:808-810).  `enum` is the enumeration produced by
`list(processed_messages)`; Python's `[-500:]` keeps the last 500 entries of
that enumeration (the whole list when it is shorter). -/
def pyTrim (enum : List String) : List String :=
  enum.drop (enum.length - 500)

/-- One dedup-relevant event of the two message-processing paths.

* `scan t enum raised` — the unread-scan handler block (src/main.py:784-810):
  check `t` and insert it when new.  `raised` records whether the rest of
  the `try` body raised after the insert (the kernel dispatch at 790-799,
  the response logging at 800, or the delivery at 804); a raise jumps to the
  `except` at 812-814, *skipping* the trim at 806-810.  Only a completed
  body trims, via the enumeration `enum`, whenever the size exceeds 1000.
* `fallback t` — the open-chat fallback handler (src/main.py:892-895): check
  `t` and insert it when new; this path contains no trim at all. -/
inductive DedupEvent where
  | scan (t : String) (enum : List String) (raised : Bool)
  | fallback (t : String)

/-- Effect of one event on the store. -/
def dedupStep (store : List String) : DedupEvent → List String
  | .fallback t => if t ∈ store then store else store ++ [t]
  | .scan t enum raised =>
    if t ∈ store then store
    else if raised then store ++ [t]
    else if (store ++ [t]).length > 1000 then pyTrim enum else store ++ [t]

/-- Fold a trace of events over the store. -/
def dedupRun (store : List String) (events : List DedupEvent) : List String :=
  events.foldl dedupStep store

/-- A `scan` event's enumeration is valid when it is a permutation of the
store contents at the moment `list(processed_messages)` runs — which only
happens when the handler body completed (no raise) on a fresh token.  In
every other case no enumeration is produced, so none is constrained;
`fallback` events carry no enumeration. -/
def validEvent (store : List String) : DedupEvent → Prop
  | .scan t enum raised =>
    raised = false ∧ t ∉ store → enum.Perm (store ++ [t])
  | .fallback _ => True

/-- A trace is valid from `store` when each event's enumeration is valid at
the state it executes in. -/
def validFrom (store : List String) : List DedupEvent → Prop
  | [] => True
  | e :: es => validEvent store e ∧ validFrom (dedupStep store e) es

/-! ### Helper lemmas about the dedup model -/

/-- Key counting lemma: running observations from `store`, a token `t` gets
verdict `true` exactly once if it occurs in the sequence and was absent from
`store`, and never otherwise. -/
theorem countP_runObs (seq : List String) (store : List String) (t : String) :
    ((seq.zip (runObs store seq)).countP (fun p => p.1 == t && p.2)) =
      if t ∈ store then 0 else if t ∈ seq then 1 else 0 := by
  induction seq generalizing store with
  | nil => simp [runObs]
  | cons x xs ih =>
    by_cases hx : x ∈ store
    · simp only [runObs, isNew, if_pos hx, List.zip_cons_cons, List.countP_cons]
      rw [ih store]
      by_cases hts : t ∈ store
      · have hxt : ¬(x == t && false) = true := by simp
        simp [hts, hxt]
      · have hne : x ≠ t := fun h => hts (h ▸ hx)
        have : ¬(x == t && false) = true := by simp
        simp only [this, if_neg hts]
        by_cases htxs : t ∈ xs
        · simp [List.mem_cons, htxs, hne]
        · have : t ∉ x :: xs := by
            intro h
            rcases List.mem_cons.mp h with h | h
            · exact hne h.symm
            · exact htxs h
          simp [this, htxs]
    · simp only [runObs, isNew, if_neg hx, List.zip_cons_cons, List.countP_cons]
      rw [ih (store ++ [x])]
      by_cases hxt : x = t
      · subst hxt
        have hmem : x ∈ store ++ [x] := by simp
        have hts : x ∉ store := hx
        simp [hmem, hts]
      · have hbeq : ¬(x == t && true) = true := by simp [hxt]
        have hmem : t ∈ store ++ [x] ↔ t ∈ store := by
          simp [List.mem_append, Ne.symm hxt]
        simp only [hbeq, if_neg, hmem]
        by_cases hts : t ∈ store
        · simp [hts]
        · simp only [if_neg hts]
          by_cases htxs : t ∈ xs
          · simp [List.mem_cons, htxs]
          · have : t ∉ x :: xs := by
              intro h
              rcases List.mem_cons.mp h with h | h
              · exact hxt h.symm
              · exact htxs h
            simp [this, htxs]

/-- Folding only fallback events over a store none of whose tokens occur in
the (duplicate-free) event list appends exactly those tokens. -/
theorem dedupRun_fallback_append (l : List String) (store : List String)
    (hdisj : ∀ t ∈ l, t ∉ store) (hnd : l.Nodup) :
    dedupRun store (l.map .fallback) = store ++ l := by
  induction l generalizing store with
  | nil => simp [dedupRun]
  | cons x xs ih =>
    have hx : x ∉ store := hdisj x (by simp)
    have hnd' := hnd
    rw [List.nodup_cons] at hnd'
    have step : dedupStep store (.fallback x) = store ++ [x] := by
      simp [dedupStep, hx]
    have hdisj' : ∀ t ∈ xs, t ∉ store ++ [x] := by
      intro t ht
      simp only [List.mem_append, List.mem_singleton]
      rintro (h | h)
      · exact hdisj t (by simp [ht]) h
      · exact hnd'.1 (h ▸ ht)
    calc dedupRun store ((x :: xs).map .fallback)
        = dedupRun (store ++ [x]) (xs.map .fallback) := by
          simp [dedupRun, List.foldl_cons, step]
      _ = (store ++ [x]) ++ xs := ih (store ++ [x]) hdisj' hnd'.2
      _ = store ++ x :: xs := by simp

/-- All-fallback traces are trivially valid. -/
theorem validFrom_fallback (l : List String) (store : List String) :
    validFrom store (l.map .fallback) := by
  induction l generalizing store with
  | nil => trivial
  | cons x xs ih => exact ⟨trivial, ih _⟩

/-- Scan events whose handler raised insert without trimming, so a flood of
them over fresh, duplicate-free tokens appends exactly those tokens, like
fallback events do. -/
theorem dedupRun_raisedScan_append (l : List String) (store : List String)
    (hdisj : ∀ t ∈ l, t ∉ store) (hnd : l.Nodup) :
    dedupRun store (l.map (fun t => .scan t [] true)) = store ++ l := by
  induction l generalizing store with
  | nil => simp [dedupRun]
  | cons x xs ih =>
    have hx : x ∉ store := hdisj x (by simp)
    have hnd' := hnd
    rw [List.nodup_cons] at hnd'
    have step : dedupStep store (.scan x [] true) = store ++ [x] := by
      simp [dedupStep, hx]
    have hdisj' : ∀ t ∈ xs, t ∉ store ++ [x] := by
      intro t ht
      simp only [List.mem_append, List.mem_singleton]
      rintro (h | h)
      · exact hdisj t (by simp [ht]) h
      · exact hnd'.1 (h ▸ ht)
    calc dedupRun store ((x :: xs).map (fun t => .scan t [] true))
        = dedupRun (store ++ [x]) (xs.map (fun t => .scan t [] true)) := by
          simp [dedupRun, List.foldl_cons, step]
      _ = (store ++ [x]) ++ xs := ih (store ++ [x]) hdisj' hnd'.2
      _ = store ++ x :: xs := by simp

/-- Raised-scan traces are valid regardless of their enumerations: the
enumeration is only produced when the trim actually runs. -/
theorem validFrom_raisedScan (l : List String) (store : List String) :
    validFrom store (l.map (fun t => .scan t [] true)) := by
  induction l generalizing store with
  | nil => trivial
  | cons x xs ih =>
    refine ⟨?_, ih _⟩
    rintro ⟨h, _⟩
    simp at h

/-- A family of pairwise-distinct concrete tokens ("", "a", "aa", ...). -/
def tok (i : Nat) : String :=
  String.mk (List.replicate i 'a')

theorem tok_injective : Function.Injective tok := by
  intro i j h
  have : (List.replicate i 'a').length = (List.replicate j 'a').length := by
    have hdata : (tok i).data = (tok j).data := by rw [h]
    simpa [tok] using congrArg List.length hdata
  simpa using this

/-- The concrete 1001-token store used for the trim counterexamples, listed in
insertion order (`tok 0` oldest, `tok 1000` most recent). -/
def store1001 : List String :=
  (List.range 1001).map tok

theorem store1001_nodup : store1001.Nodup :=
  (List.nodup_range 1001).map tok_injective

theorem store1001_length : store1001.length = 1001 := by
  simp [store1001]

theorem store1001_take_500 : store1001.take 500 = (List.range 500).map tok := by
  rw [store1001, ← List.map_take, List.take_range]
  norm_num

theorem pyTrim_reverse_store1001 :
    pyTrim store1001.reverse = ((List.range 500).map tok).reverse := by
  have h1 : pyTrim store1001.reverse = store1001.reverse.drop 501 := by
    rw [pyTrim, List.length_reverse, store1001_length]
  rw [h1, List.drop_reverse, store1001_length]
  norm_num [store1001_take_500]

/-- Positional characterization of the dedup verdicts: the verdict at
position `i` is `true` exactly when the token there is absent both from the
initial store and from the earlier part of the sequence. -/
theorem runObs_getD (seq : List String) (store : List String) (i : Nat)
    (hi : i < seq.length) :
    (runObs store seq).getD i false = true ↔
      (seq.getD i "" ∉ store ∧ seq.getD i "" ∉ seq.take i) := by
  induction seq generalizing store i with
  | nil => simp at hi
  | cons x xs ih =>
    match i with
    | 0 =>
      by_cases hx : x ∈ store <;> simp [runObs, isNew, hx]
    | i + 1 =>
      have hi' : i < xs.length := by simpa using hi
      have hstep : (runObs store (x :: xs)).getD (i + 1) false =
          (runObs (if x ∈ store then store else store ++ [x]) xs).getD i false := by
        by_cases hx : x ∈ store <;> simp [runObs, isNew, hx]
      have hgetD : (x :: xs).getD (i + 1) "" = xs.getD i "" := rfl
      have htake : List.take (i + 1) (x :: xs) = x :: List.take i xs := rfl
      rw [hstep, hgetD, htake]
      by_cases hx : x ∈ store
      · rw [if_pos hx, ih store i hi']
        constructor
        · rintro ⟨h1, h2⟩
          refine ⟨h1, fun h => ?_⟩
          rcases List.mem_cons.mp h with h | h
          · exact h1 (h ▸ hx)
          · exact h2 h
        · rintro ⟨h1, h2⟩
          exact ⟨h1, fun h => h2 (List.mem_cons_of_mem x h)⟩
      · rw [if_neg hx, ih (store ++ [x]) i hi']
        constructor
        · rintro ⟨h1, h2⟩
          simp only [List.mem_append, List.mem_singleton, not_or] at h1
          refine ⟨h1.1, fun h => ?_⟩
          rcases List.mem_cons.mp h with h | h
          · exact h1.2 h
          · exact h2 h
        · rintro ⟨h1, h2⟩
          refine ⟨?_, fun h => h2 (List.mem_cons_of_mem x h)⟩
          simp only [List.mem_append, List.mem_singleton, not_or]
          refine ⟨h1, fun h => ?_⟩
          apply h2
          rw [h]
          exact List.mem_cons_self x _

/-! ## Claim C1 -/

/-- C1 (confirmed): for every observation sequence run through the dedup
check from an empty store with no trim in between, `isNew` answers `true`
exactly once per distinct token occurring in the sequence, and the `true`
answer falls exactly on the first occurrence of the token (every later
occurrence is rejected as a duplicate). -/
theorem dedup_isNew_once_per_token (seq : List String) (t : String)
    (h : t ∈ seq) :
    ((seq.zip (runObs [] seq)).countP (fun p => p.1 == t && p.2)) = 1 ∧
    (∀ i, i < seq.length →
      ((runObs [] seq).getD i false = true ↔ seq.getD i "" ∉ seq.take i)) := by
  constructor
  · rw [countP_runObs]
    simp [h]
  · intro i hi
    rw [runObs_getD seq [] i hi]
    simp

/-- Witness for C1 at the concrete sequence `["a", "b", "a"]` and token
`"a"`: the duplicate observation of `"a"` is rejected, so `"a"` is accepted
exactly once. -/
theorem dedup_isNew_once_per_token_witness :
    "a" ∈ ["a", "b", "a"] ∧
    (((["a", "b", "a"].zip (runObs [] ["a", "b", "a"])).countP
        (fun p => p.1 == "a" && p.2)) = 1 ∧
      (∀ i, i < (["a", "b", "a"] : List String).length →
        ((runObs [] ["a", "b", "a"]).getD i false = true ↔
          (["a", "b", "a"] : List String).getD i "" ∉
            (["a", "b", "a"] : List String).take i))) :=
  ⟨by decide, dedup_isNew_once_per_token ["a", "b", "a"] "a" (by decide)⟩

/-! ## Claim C2 -/

/-- C2 (counterexample): the trim `set(list(processed_messages)[-500:])` is
*not* insertion-order truncation.  `store1001` holds 1001 distinct tokens in
insertion order, `tok 1000` being the most recently inserted (last element).
A Python `set` enumerates its elements in an unspecified hash-dependent
order; `store1001.reverse` is such an enumeration (a permutation of the
contents).  Trimming via it evicts the most-recently-inserted token
`tok 1000` and keeps the oldest token `tok 0`, contradicting the claim that
exactly the most-recently-inserted ~500 tokens survive. -/
theorem dedup_trim_not_insertion_order :
    store1001 = (List.range 1000).map tok ++ [tok 1000] ∧
    store1001.reverse.Perm store1001 ∧
    store1001.length > 1000 ∧
    tok 1000 ∉ pyTrim store1001.reverse ∧
    tok 0 ∈ pyTrim store1001.reverse := by
  refine ⟨?_, List.reverse_perm store1001, by rw [store1001_length]; norm_num, ?_, ?_⟩
  · rw [store1001, show (1001 : Nat) = 1000 + 1 from rfl, List.range_succ]
    simp
  · rw [pyTrim_reverse_store1001]
    simp only [List.mem_reverse, List.mem_map, List.mem_range]
    rintro ⟨i, hi, hEq⟩
    have := tok_injective hEq
    omega
  · rw [pyTrim_reverse_store1001]
    simp only [List.mem_reverse, List.mem_map, List.mem_range]
    exact ⟨0, by norm_num, rfl⟩

/-- C2 (amended): when the store holds 1001 distinct tokens and is trimmed
through an arbitrary enumeration of its contents (the order `list(...)`
happens to produce), exactly 500 tokens survive and each survivor was in the
store — but *which* 500 survive depends on the enumeration order, not on
insertion recency. -/
theorem dedup_trim_keeps_500_subset (store enum : List String)
    (hnd : store.Nodup) (hperm : enum.Perm store) (hlen : store.length = 1001) :
    (pyTrim enum).length = 500 ∧
    (∀ t ∈ pyTrim enum, t ∈ store) ∧
    (pyTrim enum).Nodup := by
  have hel : enum.length = 1001 := hperm.length_eq.trans hlen
  refine ⟨?_, ?_, ?_⟩
  · simp [pyTrim, hel]
  · intro t ht
    exact hperm.mem_iff.mp (List.mem_of_mem_drop ht)
  · exact (hperm.nodup_iff.mpr hnd).sublist (List.drop_sublist _ _)

/-- Witness for the amended C2 at the concrete store `store1001` enumerated
in reverse. -/
theorem dedup_trim_keeps_500_subset_witness :
    store1001.Nodup ∧ store1001.reverse.Perm store1001 ∧
      store1001.length = 1001 ∧
    ((pyTrim store1001.reverse).length = 500 ∧
      (∀ t ∈ pyTrim store1001.reverse, t ∈ store1001) ∧
      (pyTrim store1001.reverse).Nodup) :=
  ⟨store1001_nodup, List.reverse_perm store1001, store1001_length,
    dedup_trim_keeps_500_subset store1001 store1001.reverse
      store1001_nodup (List.reverse_perm store1001) store1001_length⟩

/-! ## Claim C3 -/

/-- The 1002 distinct tokens inserted by the all-fallback counterexample
trace. -/
def toks1002 : List String :=
  (List.range 1002).map tok

/-- A trace consisting solely of open-chat fallback inserts of 1002 distinct
tokens. -/
def fallbackFlood : List DedupEvent :=
  toks1002.map .fallback

set_option maxRecDepth 16384 in
/-- C3 (counterexample): the open-chat fallback path
(src/main.py:892-895) inserts into `processed_messages` without ever
invoking the trim, so the store size is *not* bounded by 1001: the valid
trace `fallbackFlood` of 1002 fallback inserts of distinct tokens starting
from the empty store reaches size 1002. -/
theorem dedup_fallback_exceeds_bound :
    validFrom [] fallbackFlood ∧
    (dedupRun [] fallbackFlood).length = 1002 ∧
    1001 < (dedupRun [] fallbackFlood).length := by
  have hF : fallbackFlood = toks1002.map DedupEvent.fallback := rfl
  have hnd : toks1002.Nodup := (List.nodup_range 1002).map tok_injective
  have hrun : dedupRun [] fallbackFlood = toks1002 := by
    rw [hF, dedupRun_fallback_append toks1002 [] (by simp) hnd]
    simp
  have hlen : toks1002.length = 1002 := by
    rw [toks1002, List.length_map, List.length_range]
  refine ⟨?_, ?_, ?_⟩
  · rw [hF]; exact validFrom_fallback toks1002 []
  · rw [hrun, hlen]
  · rw [hrun, hlen]; norm_num

set_option maxRecDepth 16384 in
/-- C3 (amended): the trim runs only when an unread-scan handler completes
its `try` body.  Along traces whose inserts all go through such completed
(non-raising) scan events, the store size stays at most 1000 after every
event — so it never exceeds the capacity by more than the one pending
insert that the trim immediately cuts back mid-event.  Scan events whose
dispatch or delivery raises skip the trim (src/main.py:806-814) just like
fallback inserts do, and a flood of raising scan events likewise pushes the
size past 1001 (second conjunct). -/
theorem dedup_scan_only_size_bound (events : List DedupEvent)
    (hscan : ∀ e ∈ events, ∃ t enum, e = .scan t enum false)
    (hvalid : validFrom [] events) :
    (dedupRun [] events).length ≤ 1000 ∧
    (∃ evs : List DedupEvent,
      (∀ e ∈ evs, ∃ t enum, e = .scan t enum true) ∧ validFrom [] evs ∧
      1001 < (dedupRun [] evs).length) := by
  constructor
  · suffices h : ∀ (evs : List DedupEvent) (store : List String),
        store.length ≤ 1000 → (∀ e ∈ evs, ∃ t enum, e = .scan t enum false) →
        validFrom store evs → (dedupRun store evs).length ≤ 1000 by
      exact h events [] (by simp) hscan hvalid
    intro evs
    induction evs with
    | nil => intro store hs _ _; simpa [dedupRun] using hs
    | cons e es ih =>
      intro store hs hsc hv
      obtain ⟨t, enum, rfl⟩ := hsc e (by simp)
      have hv1 : validEvent store (.scan t enum false) := hv.1
      have hv2 := hv.2
      have hstep : (dedupStep store (.scan t enum false)).length ≤ 1000 := by
        by_cases ht : t ∈ store
        · simpa [dedupStep, ht] using hs
        · have hperm : enum.Perm (store ++ [t]) := hv1 ⟨rfl, ht⟩
          have hel : enum.length = store.length + 1 := by
            simpa using hperm.length_eq
          by_cases hlen : (store ++ [t]).length > 1000
          · have hred : dedupStep store (.scan t enum false) = pyTrim enum := by
              show (if t ∈ store then store
                else if (false : Bool) = true then store ++ [t]
                else if (store ++ [t]).length > 1000 then pyTrim enum
                else store ++ [t]) = pyTrim enum
              rw [if_neg ht, if_neg (by simp), if_pos hlen]
            rw [hred]
            simp only [pyTrim, List.length_drop]
            omega
          · have hred : dedupStep store (.scan t enum false) = store ++ [t] := by
              show (if t ∈ store then store
                else if (false : Bool) = true then store ++ [t]
                else if (store ++ [t]).length > 1000 then pyTrim enum
                else store ++ [t]) = store ++ [t]
              rw [if_neg ht, if_neg (by simp), if_neg hlen]
            rw [hred]
            simp only [List.length_append, List.length_singleton] at hlen ⊢
            omega
      have : dedupRun store (DedupEvent.scan t enum false :: es) =
          dedupRun (dedupStep store (.scan t enum false)) es := by
        simp [dedupRun, List.foldl_cons]
      rw [this]
      exact ih _ hstep (fun e he => hsc e (by simp [he])) hv2
  · refine ⟨toks1002.map (fun t => .scan t [] true), ?_,
      validFrom_raisedScan toks1002 [], ?_⟩
    · rintro e he
      simp only [List.mem_map] at he
      obtain ⟨t, _, rfl⟩ := he
      exact ⟨t, [], rfl⟩
    · have hnd : toks1002.Nodup := (List.nodup_range 1002).map tok_injective
      rw [dedupRun_raisedScan_append toks1002 [] (by simp) hnd]
      have hlen : toks1002.length = 1002 := by
        rw [toks1002, List.length_map, List.length_range]
      simp only [List.nil_append, hlen]
      omega

/-- Witness for the amended C3 at the one-event concrete trace inserting
`"a"` through a completed (non-raising) scan event. -/
theorem dedup_scan_only_size_bound_witness :
    (∀ e ∈ [DedupEvent.scan "a" ["a"] false], ∃ t enum, e = .scan t enum false) ∧
    validFrom [] [DedupEvent.scan "a" ["a"] false] ∧
    (dedupRun [] [DedupEvent.scan "a" ["a"] false]).length ≤ 1000 := by
  have hsc : ∀ e ∈ [DedupEvent.scan "a" ["a"] false],
      ∃ t enum, e = .scan t enum false := by
    rintro e he
    simp only [List.mem_singleton] at he
    exact ⟨"a", ["a"], he⟩
  have hv : validFrom [] [DedupEvent.scan "a" ["a"] false] := by
    refine ⟨?_, trivial⟩
    intro _
    exact List.Perm.refl _
  exact ⟨hsc, hv, (dedup_scan_only_size_bound [DedupEvent.scan "a" ["a"] false]
    hsc hv).1⟩

/-! ## Claim C10: per-message handler ordering and failure behavior

`listen_for_messages` (src/main.py:784-814) runs, per new message:
insert into `processed_messages` (785), dispatch to the kernel (790-799),
deliver the reply when non-empty (803-804), then trim (806-810); any
exception is caught at the per-chat boundary (812-814).
`respond_if_new_message_in_open_chat` (src/main.py:892-924) runs the same
steps without the trim, with its own enclosing `try` (921-924).
-/

/-- Observable events of one handler execution, in program order. -/
inductive HEvent where
  | insert (t : String)
  | dispatch
  | deliver
  | trim
  deriving DecidableEq

/-- Result of one handler execution.  `raised` records whether an exception
escaped to the surrounding `except` handler. -/
structure HandlerResult where
  store : List String
  dispatched : Bool
  delivered : Bool
  raised : Bool
  trace : List HEvent
  deriving DecidableEq

/-- Embedding of the unread-scan per-message block (src/main.py:784-810).
`dispatchRes` is the outcome of `generate_response_for_payload` (`.error` =
the call raised), `deliverRes` the outcome of `reply_to_current_chat`,
`enum` the enumeration `list(processed_messages)` would produce for the
trim.  The trim runs only when control reaches the end of the `try` body. -/
def scanHandle (store : List String) (token : String)
    (dispatchRes : Except Unit String) (deliverRes : Except Unit Bool)
    (enum : List String) : HandlerResult :=
  if token ∈ store then ⟨store, false, false, false, []⟩
  else
    match dispatchRes with
    | .error _ => ⟨store ++ [token], true, false, true, [.insert token, .dispatch]⟩
    | .ok resp =>
      if resp ≠ "" ∧ resp.trim ≠ "" then
        match deliverRes with
        | .error _ =>
          ⟨store ++ [token], true, false, true, [.insert token, .dispatch, .deliver]⟩
        | .ok _ =>
          if (store ++ [token]).length > 1000 then
            ⟨pyTrim enum, true, true, false, [.insert token, .dispatch, .deliver, .trim]⟩
          else
            ⟨store ++ [token], true, true, false, [.insert token, .dispatch, .deliver]⟩
      else
        if (store ++ [token]).length > 1000 then
          ⟨pyTrim enum, true, false, false, [.insert token, .dispatch, .trim]⟩
        else
          ⟨store ++ [token], true, false, false, [.insert token, .dispatch]⟩

/-- Embedding of the open-chat fallback handler (src/main.py:892-924): same
check-insert-dispatch-deliver order, but no trim anywhere. -/
def fallbackHandle (store : List String) (token : String)
    (dispatchRes : Except Unit String) (deliverRes : Except Unit Bool) :
    HandlerResult :=
  if token ∈ store then ⟨store, false, false, false, []⟩
  else
    match dispatchRes with
    | .error _ => ⟨store ++ [token], true, false, true, [.insert token, .dispatch]⟩
    | .ok resp =>
      if resp ≠ "" ∧ resp.trim ≠ "" then
        match deliverRes with
        | .error _ =>
          ⟨store ++ [token], true, false, true, [.insert token, .dispatch, .deliver]⟩
        | .ok _ =>
          ⟨store ++ [token], true, true, false, [.insert token, .dispatch, .deliver]⟩
      else
        ⟨store ++ [token], true, false, false, [.insert token, .dispatch]⟩

/-- C10 (confirmed): on both processing paths, a message that passes the
dedup check has its token inserted before the kernel dispatch and before any
delivery attempt (the insert heads the event trace); hence whenever the
handler raises — kernel dispatch or delivery failing with an exception — the
token is already in the store, and a later handling of the same token does
not dispatch again: failed messages are dropped, not retried. -/
theorem token_stored_before_dispatch_no_retry
    (store : List String) (token : String)
    (d1 d2 : Except Unit String) (r1 r2 : Except Unit Bool)
    (enum enum2 : List String) (hnew : token ∉ store) :
    ((scanHandle store token d1 r1 enum).trace.head? = some (.insert token) ∧
      ((scanHandle store token d1 r1 enum).raised = true →
        token ∈ (scanHandle store token d1 r1 enum).store ∧
        (scanHandle (scanHandle store token d1 r1 enum).store token d2 r2
            enum2).dispatched = false)) ∧
    ((fallbackHandle store token d1 r1).trace.head? = some (.insert token) ∧
      ((fallbackHandle store token d1 r1).raised = true →
        token ∈ (fallbackHandle store token d1 r1).store ∧
        (fallbackHandle (fallbackHandle store token d1 r1).store token d2
            r2).dispatched = false)) := by
  have hmem : token ∈ store ++ [token] := by simp
  constructor
  · constructor
    · match d1 with
      | .error _ => simp [scanHandle, hnew]
      | .ok resp =>
        by_cases hr : resp ≠ "" ∧ resp.trim ≠ ""
        · match r1 with
          | .error _ => simp [scanHandle, hnew, hr]
          | .ok b =>
            simp only [scanHandle, if_neg hnew, if_pos hr]
            split <;> simp
        · simp only [scanHandle, if_neg hnew, if_neg hr]
          split <;> simp
    · intro hraised
      match d1 with
      | .error _ =>
        have hst : (scanHandle store token (.error ()) r1 enum).store =
            store ++ [token] := by simp [scanHandle, hnew]
        rw [hst]
        exact ⟨hmem, by simp [scanHandle, hmem]⟩
      | .ok resp =>
        by_cases hr : resp ≠ "" ∧ resp.trim ≠ ""
        · match r1 with
          | .error _ =>
            have hst : (scanHandle store token (.ok resp) (.error ()) enum).store =
                store ++ [token] := by simp [scanHandle, hnew, hr]
            rw [hst]
            exact ⟨hmem, by simp [scanHandle, hmem]⟩
          | .ok b =>
            exfalso
            simp only [scanHandle, if_neg hnew, if_pos hr] at hraised
            split at hraised <;> simp at hraised
        · exfalso
          simp only [scanHandle, if_neg hnew, if_neg hr] at hraised
          split at hraised <;> simp at hraised
  · constructor
    · match d1 with
      | .error _ => simp [fallbackHandle, hnew]
      | .ok resp =>
        by_cases hr : resp ≠ "" ∧ resp.trim ≠ ""
        · match r1 with
          | .error _ => simp [fallbackHandle, hnew, hr]
          | .ok b => simp [fallbackHandle, hnew, hr]
        · simp [fallbackHandle, hnew, hr]
    · intro hraised
      match d1 with
      | .error _ =>
        have hst : (fallbackHandle store token (.error ()) r1).store =
            store ++ [token] := by simp [fallbackHandle, hnew]
        rw [hst]
        exact ⟨hmem, by simp [fallbackHandle, hmem]⟩
      | .ok resp =>
        by_cases hr : resp ≠ "" ∧ resp.trim ≠ ""
        · match r1 with
          | .error _ =>
            have hst : (fallbackHandle store token (.ok resp) (.error ())).store =
                store ++ [token] := by simp [fallbackHandle, hnew, hr]
            rw [hst]
            exact ⟨hmem, by simp [fallbackHandle, hmem]⟩
          | .ok b =>
            exfalso
            simp [fallbackHandle, hnew, hr] at hraised
        · exfalso
          simp [fallbackHandle, hnew, hr] at hraised

/-- Witness for C10: a fresh token `"m"` on the empty store, with the kernel
dispatch raising, stays stored and is not dispatched again. -/
theorem token_stored_before_dispatch_no_retry_witness :
    ("m" ∉ ([] : List String)) ∧
    (((scanHandle [] "m" (.error ()) (.ok true) []).trace.head? =
        some (.insert "m") ∧
      ((scanHandle [] "m" (.error ()) (.ok true) []).raised = true →
        "m" ∈ (scanHandle [] "m" (.error ()) (.ok true) []).store ∧
        (scanHandle (scanHandle [] "m" (.error ()) (.ok true) []).store "m"
            (.ok "r") (.ok true) []).dispatched = false)) ∧
      ((fallbackHandle [] "m" (.error ()) (.ok true)).trace.head? =
          some (.insert "m") ∧
        ((fallbackHandle [] "m" (.error ()) (.ok true)).raised = true →
          "m" ∈ (fallbackHandle [] "m" (.error ()) (.ok true)).store ∧
          (fallbackHandle (fallbackHandle [] "m" (.error ()) (.ok true)).store
              "m" (.ok "r") (.ok true)).dispatched = false))) :=
  ⟨by decide,
    token_stored_before_dispatch_no_retry [] "m" (.error ()) (.ok "r")
      (.ok true) (.ok true) [] [] (by decide)⟩

/-! ## Python string primitives

The Lean core `String` operations (`trim`, `splitOn`, ...) are not
kernel-reducible, so the Python string operations the source uses are
re-implemented structurally over the character list.  They follow Python
semantics (`str.strip`, `str.lower`, `str.startswith`, `str.split`,
slicing, `in`). -/

/-- Python whitespace for `str.strip` (the characters occurring in practice). -/
def pySpace (c : Char) : Bool :=
  c = ' ' || c = '\t' || c = '\n' || c = '\r'

/-- `str.strip()`. -/
def pyStrip (s : String) : String :=
  String.mk (((s.data.dropWhile pySpace).reverse.dropWhile pySpace).reverse)

/-- ASCII `str.lower()` on one character. -/
def pyLowerChar (c : Char) : Char :=
  if 65 ≤ c.toNat ∧ c.toNat ≤ 90 then Char.ofNat (c.toNat + 32) else c

/-- `str.lower()` (ASCII range, which covers the command prefixes used). -/
def pyLower (s : String) : String :=
  String.mk (s.data.map pyLowerChar)

/-- `str.startswith(pre)`. -/
def pyStartsWith (s pre : String) : Bool :=
  pre.data.isPrefixOf s.data

/-- Python slicing `s[:n]`. -/
def pyTake (n : Nat) (s : String) : String :=
  String.mk (s.data.take n)

/-- Python slicing `s[n:]`. -/
def pyDrop (n : Nat) (s : String) : String :=
  String.mk (s.data.drop n)

/-- `sep in s` for a one-character separator. -/
def pyContainsChar (sep : Char) (s : String) : Bool :=
  s.data.contains sep

/-- `s.split(sep)` for a one-character separator, on character lists.
Splitting the empty string yields `[[]]`, as in Python. -/
def splitChar (sep : Char) : List Char → List (List Char)
  | [] => [[]]
  | c :: cs =>
    if c = sep then [] :: splitChar sep cs
    else
      match splitChar sep cs with
      | h :: t => (c :: h) :: t
      | [] => [[c]]

/-- `s.split(sep)` for a one-character separator. -/
def pySplit (sep : Char) (s : String) : List String :=
  (splitChar sep s.data).map String.mk

/-- `s.split(sep, 1)` when the separator occurs: the part before the first
occurrence and the part after it; `none` when the separator is absent
(where Python would return a one-element list). -/
def splitFirstChar (sep : Char) : List Char → Option (List Char × List Char)
  | [] => none
  | c :: cs =>
    if c = sep then some ([], cs)
    else
      match splitFirstChar sep cs with
      | some (a, b) => some (c :: a, b)
      | none => none

/-- `needle in hay` (substring containment). -/
def containsSeq (needle : List Char) : List Char → Bool
  | [] => needle.isEmpty
  | c :: cs => needle.isPrefixOf (c :: cs) || containsSeq needle cs

/-- `sub in s` for strings. -/
def pyContains (s sub : String) : Bool :=
  containsSeq sub.data s.data

/-! ## Base64 and data-URL decoding (src/main.py:146-168)

`base64.b64decode` is modelled strictly: the standard alphabet in groups of
four characters with trailing `=` padding; anything else fails (Python
raises `binascii.Error` on such inputs, which the callers catch and turn
into `None`). -/

/-- Value of one base64 alphabet character. -/
def b64Val (c : Char) : Option Nat :=
  if 65 ≤ c.toNat ∧ c.toNat ≤ 90 then some (c.toNat - 65)
  else if 97 ≤ c.toNat ∧ c.toNat ≤ 122 then some (c.toNat - 97 + 26)
  else if 48 ≤ c.toNat ∧ c.toNat ≤ 57 then some (c.toNat - 48 + 52)
  else if c = '+' then some 62
  else if c = '/' then some 63
  else none

/-- Decode base64 character groups into bytes. -/
def b64DecodeChars : List Char → Option (List Nat)
  | [] => some []
  | a :: b :: c :: d :: rest =>
    match b64Val a, b64Val b with
    | some va, some vb =>
      if c = '=' then
        if d = '=' ∧ rest = [] then some [va * 4 + vb / 16] else none
      else
        match b64Val c with
        | some vc =>
          if d = '=' then
            if rest = [] then some [va * 4 + vb / 16, (vb % 16) * 16 + vc / 4]
            else none
          else
            match b64Val d with
            | some vd =>
              match b64DecodeChars rest with
              | some bs =>
                some ((va * 4 + vb / 16) :: ((vb % 16) * 16 + vc / 4) ::
                  ((vc % 4) * 64 + vd) :: bs)
              | none => none
            | none => none
        | none => none
    | _, _ => none
  | _ => none

/-- `base64.b64decode` on a string; `none` models the decode raising. -/
def b64decode (s : String) : Option (List Nat) :=
  b64DecodeChars s.data

/-- `data_url.split(",", 1)` with the two-element unpacking of the callers:
`none` models the `ValueError` (caught, turned into a `None` result) when no
comma occurs. -/
def splitFirstComma (s : String) : Option (String × String) :=
  match splitFirstChar ',' s.data with
  | some (a, b) => some (String.mk a, String.mk b)
  | none => none

/-- Embedding of `_data_url_to_bytes` (src/main.py:146-154): split off the
header before the first comma, require `"base64" in header`, base64-decode
the remainder; any failure yields `None`. -/
def _data_url_to_bytes (dataUrl : String) : Option (List Nat) :=
  match splitFirstComma dataUrl with
  | none => none
  | some (header, b64Data) =>
    if pyContains header "base64" then b64decode b64Data else none

/-- The mime extraction of `_data_url_to_bytes_and_mime`:
`header[5:].split(";")[0]` when the header starts with `data:`. -/
def mimeOfHeader (header : String) : String :=
  if pyStartsWith header "data:" then
    match splitChar ';' (pyDrop 5 header).data with
    | m :: _ => String.mk m
    | [] => ""
  else ""

/-- Embedding of `_data_url_to_bytes_and_mime` (src/main.py:157-168):
like `_data_url_to_bytes` but also reporting the mime type named in the
header; failures yield `(None, "")`. -/
def _data_url_to_bytes_and_mime (dataUrl : String) : Option (List Nat) × String :=
  match splitFirstComma dataUrl with
  | none => (none, "")
  | some (header, b64Data) =>
    if pyContains header "base64" then
      match b64decode b64Data with
      | some bs => (some bs, mimeOfHeader header)
      | none => (none, "")
    else (none, "")

/-! ## MessagePayloadExtractor (src/main.py:198-262, 293-352)

A message row handle is modelled by the attribute values and sub-element
query results the code reads.  An `Option String` field is `none` when the
corresponding `query_selector` finds no element, and `some v` when an
element exists and yields the string `v` (attribute readings are already
defaulted with `or ""` in the source where applicable). -/

/-- One message DOM row, as far as `extract_message_payload` and
`_extract_media_from_message` inspect it. -/
structure MsgRow where
  /-- `data-id` attribute (`or ""`). -/
  dataId : String
  /-- `data-pre-plain-text` attribute (`or ""`). -/
  prePlain : String
  /-- `aria-label` attribute (`or ""`). -/
  ariaLabel : String
  /-- inner text of a `span.selectable-text` match, when present. -/
  selectableText : Option String
  /-- inner text of a `span[dir='ltr']` match, when present. -/
  dirLtrText : Option String
  /-- inner text of a `span._ao3e` match, when present. -/
  ao3eText : Option String
  /-- the row's full `inner_text()`. -/
  rowText : String
  /-- `src` of an `img[src], img[data-testid='image']` match (`or ""`),
  `none` when no such element. -/
  imgSrc : Option String
  /-- `src` of an `audio[src]` match (`or ""`), `none` when no such
  element. -/
  audioSrc : Option String
  /-- whether an audio play-control marker element matches. -/
  audioMarker : Bool
  /-- whether a document-indicator element matches. -/
  docMarker : Bool
  /-- `title` attribute of a `span[title], div[title]` match, `none` when no
  element or no attribute (`doc_name` stays `None`). -/
  docTitle : Option String
  /-- `href` of an `a[href^='blob:'], a[href^='data:']` match, when
  present. -/
  docLinkHref : Option String
  deriving DecidableEq

/-- External effects of the extractor: fetching a `blob:` URL from inside
the page (`_blob_url_to_bytes`, src/main.py:171-195 — `none` on any
failure), `mimetypes.guess_type` (first component), and
`hashlib.sha1(...).hexdigest()`.  They are stdlib/runtime services, not
repository code, so they are parameters of the embedding. -/
structure ExtEnv where
  blobFetch : String → Option (List Nat)
  guessType : String → Option String
  sha1hex : List Nat → String

/-- Decode a media `src`: `data:` URLs through `_data_url_to_bytes`,
`blob:` URLs through the in-page fetch, anything else not at all
(src/main.py:211-215, 220-224). -/
def mediaBytesOfSrc (env : ExtEnv) (src : String) : Option (List Nat) :=
  if pyStartsWith src "data:" then _data_url_to_bytes src
  else if pyStartsWith src "blob:" then env.blobFetch src
  else none

/-- The document link decoding of the `doc_marker` block
(src/main.py:242-248): a `data:` href yields bytes and mime via
`_data_url_to_bytes_and_mime`, a `blob:` href yields fetched bytes and no
mime, otherwise nothing. -/
def docLinkDecode (env : ExtEnv) (row : MsgRow) : Option (List Nat) × String :=
  match row.docLinkHref with
  | none => (none, "")
  | some href =>
    if pyStartsWith href "data:" then _data_url_to_bytes_and_mime href
    else if pyStartsWith href "blob:" then (env.blobFetch href, "")
    else (none, "")

/-- The document mime after the fallback inference
`if doc_name and not doc_mime: doc_mime = mimetypes.guess_type(doc_name)[0] or ""`
(src/main.py:250-251). -/
def docMimeOf (env : ExtEnv) (row : MsgRow) : String :=
  match row.docTitle with
  | some n =>
    if n ≠ "" ∧ (docLinkDecode env row).2 = "" then (env.guessType n).getD ""
    else (docLinkDecode env row).2
  | none => (docLinkDecode env row).2

/-- Result record of `_extract_media_from_message` (src/main.py:253-262). -/
structure MediaInfo where
  image_bytes : Option (List Nat)
  audio_bytes : Option (List Nat)
  doc_bytes : Option (List Nat)
  doc_name : Option String
  doc_mime : String
  image_detected : Bool
  audio_detected : Bool
  doc_detected : Bool
  deriving DecidableEq

/-- Embedding of `_extract_media_from_message` (src/main.py:198-262).
`audio_detected` is set by an `audio[src]` element, or failing that by a
play-control marker; the document fields are only filled when the document
indicator matched. -/
def _extract_media_from_message (env : ExtEnv) (row : MsgRow) : MediaInfo :=
  { image_bytes :=
      match row.imgSrc with
      | some src => mediaBytesOfSrc env src
      | none => none
    audio_bytes :=
      match row.audioSrc with
      | some src => mediaBytesOfSrc env src
      | none => none
    doc_bytes := if row.docMarker then (docLinkDecode env row).1 else none
    doc_name := if row.docMarker then row.docTitle else none
    doc_mime := if row.docMarker then docMimeOf env row else ""
    image_detected := row.imgSrc.isSome
    audio_detected := row.audioSrc.isSome || row.audioMarker
    doc_detected := row.docMarker }

/-- The text-selector cascade of `extract_message_payload`
(src/main.py:298-304): take the first present selector whose stripped inner
text is non-empty; remember an empty string if some selector was present
but empty. -/
def cascadeText : List (Option String) → Option String
  | [] => none
  | none :: rest => cascadeText rest
  | some t :: rest =>
    if pyStrip t = "" then
      match cascadeText rest with
      | none => some ""
      | r => r
    else some (pyStrip t)

/-- The extracted message text, including the fall back to the row's full
`inner_text()` when the selector cascade produced nothing truthy
(src/main.py:298-310). -/
def extract_text (row : MsgRow) : Option String :=
  if (cascadeText [row.selectableText, row.dirLtrText, row.ao3eText]).getD "" ≠ ""
  then cascadeText [row.selectableText, row.dirLtrText, row.ao3eText]
  else if pyStrip row.rowText ≠ "" then some (pyStrip row.rowText)
  else cascadeText [row.selectableText, row.dirLtrText, row.ao3eText]

/-- Python truthiness of an optional byte string (`None` and `b""` are
falsy). -/
def truthy : Option (List Nat) → Bool
  | some l => !l.isEmpty
  | none => false

/-- The media-type resolution chain of `extract_message_payload`
(src/main.py:313-325): decoded bytes first in order audio > image >
document, then bare detection flags in the same order, else `"text"`. -/
def resolveMediaType (m : MediaInfo) : String :=
  if truthy m.audio_bytes then "audio"
  else if truthy m.image_bytes then "image"
  else if truthy m.doc_bytes then "document"
  else if m.audio_detected then "audio"
  else if m.image_detected then "image"
  else if m.doc_detected then "document"
  else "text"

/-- The identity-token seed `data_id or pre_plain or aria_label`
(src/main.py:327): the first non-empty of stable element id, provenance
string, accessible label. -/
def seedOf (row : MsgRow) : String :=
  if row.dataId ≠ "" then row.dataId
  else if row.prePlain ≠ "" then row.prePlain
  else row.ariaLabel

/-- The identity-token suffix (src/main.py:328-337): first 50 characters of
the text for text messages; otherwise the first 10 hex digits of the SHA-1
of the first 2048 decoded bytes (image, then audio, then document); the
sentinel `"nomedia"` when nothing decoded. -/
def suffixOf (env : ExtEnv) (msg_text : Option String) (media_type : String)
    (m : MediaInfo) : String :=
  if media_type = "text" then pyTake 50 (msg_text.getD "")
  else if truthy m.image_bytes then
    pyTake 10 (env.sha1hex ((m.image_bytes.getD []).take 2048))
  else if truthy m.audio_bytes then
    pyTake 10 (env.sha1hex ((m.audio_bytes.getD []).take 2048))
  else if truthy m.doc_bytes then
    pyTake 10 (env.sha1hex ((m.doc_bytes.getD []).take 2048))
  else "nomedia"

/-- The structured payload returned by `extract_message_payload`
(src/main.py:340-352). -/
structure Payload where
  text : Option String
  type : String
  msg_id : String
  image_bytes : Option (List Nat)
  audio_bytes : Option (List Nat)
  doc_bytes : Option (List Nat)
  doc_name : Option String
  doc_mime : String
  media_detected : Bool
  deriving DecidableEq

/-- Embedding of `extract_message_payload` (src/main.py:293-352). -/
def extract_message_payload (env : ExtEnv) (row : MsgRow) : Payload :=
  { text := extract_text row
    type := resolveMediaType (_extract_media_from_message env row)
    msg_id := seedOf row ++ ":" ++
      resolveMediaType (_extract_media_from_message env row) ++ ":" ++
      suffixOf env (extract_text row)
        (resolveMediaType (_extract_media_from_message env row))
        (_extract_media_from_message env row)
    image_bytes := (_extract_media_from_message env row).image_bytes
    audio_bytes := (_extract_media_from_message env row).audio_bytes
    doc_bytes := (_extract_media_from_message env row).doc_bytes
    doc_name := (_extract_media_from_message env row).doc_name
    doc_mime := (_extract_media_from_message env row).doc_mime
    media_detected := (_extract_media_from_message env row).image_detected ||
      (_extract_media_from_message env row).audio_detected ||
      (_extract_media_from_message env row).doc_detected }

/-- A concrete environment whose external services all fail/return nothing
(the blob fetch fails, no mime is guessed, the hash is irrelevant). -/
def envNone : ExtEnv :=
  { blobFetch := fun _ => none, guessType := fun _ => none,
    sha1hex := fun _ => "" }

/-- The worked example row of the claim: stable id `"abc123"`, text
`"Hello"`, no media. -/
def exampleRow : MsgRow :=
  { dataId := "abc123", prePlain := "", ariaLabel := "",
    selectableText := some "Hello", dirLtrText := none, ao3eText := none,
    rowText := "Hello", imgSrc := none, audioSrc := none, audioMarker := false,
    docMarker := false, docTitle := none, docLinkHref := none }

/-! ## Claim C4 -/

/-- The fingerprint component of the identity token, stated on the output
payload in the terms of the claim: first 50 characters of the text for text
messages; a short hash (first 10 hex digits of the SHA-1 digest) of the
first 2048 bytes of the decoded media bytes when media bytes decoded (image
bytes first, then audio, then document); the fixed sentinel `"nomedia"`
otherwise — i.e. when media was detected but no bytes could be decoded. -/
def tokenFingerprint (env : ExtEnv) (p : Payload) : String :=
  if p.type = "text" then pyTake 50 (p.text.getD "")
  else if truthy p.image_bytes then
    pyTake 10 (env.sha1hex ((p.image_bytes.getD []).take 2048))
  else if truthy p.audio_bytes then
    pyTake 10 (env.sha1hex ((p.audio_bytes.getD []).take 2048))
  else if truthy p.doc_bytes then
    pyTake 10 (env.sha1hex ((p.doc_bytes.getD []).take 2048))
  else "nomedia"

/-- C4 (confirmed): for every row, the identity token deterministically
combines the seed (first available of stable element id, provenance string,
accessible label — `seedOf`), the resolved media type, and the fingerprint
(`tokenFingerprint`, `:`-separated as the f-string writes it); the
extraction is a pure function of the row, so re-extracting the same
unchanged row yields the identical token.  On the worked-example row with
stable id `"abc123"`, text `"Hello"` and no media, the token combines
`"abc123"` + `"text"` + `"Hello"`. -/
theorem identity_token_structure (env : ExtEnv) (row : MsgRow) :
    (extract_message_payload env row).msg_id =
      seedOf row ++ ":" ++ (extract_message_payload env row).type ++ ":" ++
        tokenFingerprint env (extract_message_payload env row) ∧
    (extract_message_payload env exampleRow).msg_id =
      "abc123" ++ ":" ++ "text" ++ ":" ++ "Hello" := by
  exact ⟨rfl, rfl⟩

/-! ## Claim C5 -/

/-- A synthetic row exposing both an image marker (an `img` element whose
`src` is neither a `data:` nor a `blob:` URL, so nothing decodes) and a
document marker whose link is a decodable `data:` URL. -/
def rowImageAndDoc : MsgRow :=
  { dataId := "row2", prePlain := "", ariaLabel := "",
    selectableText := none, dirLtrText := none, ao3eText := none,
    rowText := "", imgSrc := some "https://img", audioSrc := none,
    audioMarker := false, docMarker := true, docTitle := some "f.pdf",
    docLinkHref := some "data:application/pdf;base64,AAAA" }

/-- C5 (counterexample): media-type resolution is *not* plain first-match
priority audio > image > document.  `rowImageAndDoc` exposes both an image
marker and a document marker, yet resolves to `"document"`, because decoded
bytes (the document's `data:` link) take precedence over a bare image
detection.  The claim says such a row resolves to `mediaType = image`. -/
theorem media_priority_counterexample :
    (_extract_media_from_message envNone rowImageAndDoc).image_detected = true ∧
    (_extract_media_from_message envNone rowImageAndDoc).doc_detected = true ∧
    (_extract_media_from_message envNone rowImageAndDoc).audio_detected = false ∧
    (extract_message_payload envNone rowImageAndDoc).type = "document" := by
  decide

/-- C5 (amended): the resolution is two-tiered — rows with decoded media
bytes resolve first, in order audio > image > document, and only then do
bare detection markers apply, in the same order.  In particular a row
exposing both an image marker and a document marker resolves to
`mediaType = image` provided the document link yielded no decoded bytes
(and no audio is present); with decodable document bytes and a bare image
marker it resolves to `document` instead. -/
theorem media_priority_two_tier (env : ExtEnv) (row : MsgRow)
    (himg : row.imgSrc.isSome = true) (hdoc : row.docMarker = true)
    (hnoaudio : row.audioSrc = none) (hnomarker : row.audioMarker = false)
    (hnodocbytes : truthy (_extract_media_from_message env row).doc_bytes = false) :
    (extract_message_payload env row).type =
      resolveMediaType (_extract_media_from_message env row) ∧
    (extract_message_payload env row).type = "image" := by
  refine ⟨rfl, ?_⟩
  show resolveMediaType (_extract_media_from_message env row) = "image"
  have haudio : (_extract_media_from_message env row).audio_bytes = none := by
    simp [_extract_media_from_message, hnoaudio]
  have hadet : (_extract_media_from_message env row).audio_detected = false := by
    simp [_extract_media_from_message, hnoaudio, hnomarker]
  have hidet : (_extract_media_from_message env row).image_detected = true := by
    simp [_extract_media_from_message, himg]
  have h1 : truthy (_extract_media_from_message env row).audio_bytes = false := by
    rw [haudio]; rfl
  cases himgBytes : truthy (_extract_media_from_message env row).image_bytes
  · unfold resolveMediaType
    rw [h1, himgBytes, hnodocbytes, hadet, hidet]
    simp
  · unfold resolveMediaType
    rw [h1, himgBytes]
    simp

/-- A synthetic row with a bare image marker and a bare document marker and
no decodable bytes at all. -/
def rowMarkersOnly : MsgRow :=
  { dataId := "row3", prePlain := "", ariaLabel := "",
    selectableText := none, dirLtrText := none, ao3eText := none,
    rowText := "", imgSrc := some "https://img", audioSrc := none,
    audioMarker := false, docMarker := true, docTitle := none,
    docLinkHref := none }

/-- Witness for the amended C5 at `rowMarkersOnly`: image marker plus
document marker with nothing decoded resolves to `"image"`. -/
theorem media_priority_two_tier_witness :
    (rowMarkersOnly.imgSrc.isSome = true ∧ rowMarkersOnly.docMarker = true ∧
      rowMarkersOnly.audioSrc = none ∧ rowMarkersOnly.audioMarker = false ∧
      truthy (_extract_media_from_message envNone rowMarkersOnly).doc_bytes =
        false) ∧
    (extract_message_payload envNone rowMarkersOnly).type = "image" :=
  ⟨by decide,
    (media_priority_two_tier envNone rowMarkersOnly (by decide) (by decide)
      (by decide) (by decide) (by decide)).2⟩

/-! ## LoginStateMonitor (src/main.py:670-697) -/

/-- The two states the monitor distinguishes at a sampling tick. -/
inductive LoginState where
  | connected
  | awaitingScan
  deriving DecidableEq

/-- Embedding of the classification
`logged_in = (chat_list or chat_grid or chat_textbox) and not qr_canvas`
(src/main.py:676-683): each argument tells whether the respective
`query_selector` found an element. -/
def monitor_whatsapp_status (qrCanvas chatList chatGrid chatTextbox : Bool) :
    LoginState :=
  if (chatList || chatGrid || chatTextbox) && !qrCanvas then .connected
  else .awaitingScan

/-! ## Claim C8 -/

/-- C8 (confirmed): at a sampling tick the monitor classifies the session as
connected if and only if at least one chat marker (chat-list container, chat
grid, or message-input textbox) is present and the QR/scan-required marker
is absent; in every other combination the state is awaiting-scan. -/
theorem login_classification (qrCanvas chatList chatGrid chatTextbox : Bool) :
    monitor_whatsapp_status qrCanvas chatList chatGrid chatTextbox =
        .connected ↔
      ((chatList = true ∨ chatGrid = true ∨ chatTextbox = true) ∧
        qrCanvas = false) := by
  cases qrCanvas <;> cases chatList <;> cases chatGrid <;> cases chatTextbox <;>
    simp [monitor_whatsapp_status]

/-! ## ResponseBridge (src/main.py:927-992)

`reply_to_current_chat` first tries the scripted injection
(`_send_text_via_wpp`), then falls back to DOM interaction.  The external
world is parameterized: whether the page handle exists, whether the in-page
library reports ready (`_ensure_wpp_ready`), the outcome of the
`page.evaluate` send call (`.error` = it raised), whether the input box was
found, and the outcome of the click/type interaction sequence. -/

/-- Embedding of `_send_text_via_wpp` (src/main.py:970-992): `False` when
the page is missing, the library is not ready, or the scripted send raised
(the exception is caught internally); otherwise the truthiness of the
returned `ok` field. -/
def _send_text_via_wpp (pagePresent wppReady : Bool)
    (wppEval : Except Unit Bool) : Bool :=
  if !pagePresent then false
  else if !wppReady then false
  else
    match wppEval with
    | .ok ok => ok
    | .error _ => false

/-- The DOM-interaction fallback portion of `reply_to_current_chat`
(src/main.py:936-967): `False` when no input box is found; otherwise the
click/type sequence runs, returning `True`, unless it raises, in which case
the enclosing `except` returns `False`. -/
def domFallbackSend (inputFound : Bool) (domOutcome : Except Unit Unit) : Bool :=
  if inputFound then
    match domOutcome with
    | .ok _ => true
    | .error _ => false
  else false

/-- Embedding of `reply_to_current_chat` (src/main.py:927-967): scripted
injection first (when `USE_WPP_SEND`), DOM fallback otherwise.  The
function is total: no exception reaches the caller. -/
def reply_to_current_chat (useWpp pagePresent wppReady : Bool)
    (wppEval : Except Unit Bool) (inputFound : Bool)
    (domOutcome : Except Unit Unit) : Bool :=
  if useWpp && _send_text_via_wpp pagePresent wppReady wppEval then true
  else domFallbackSend inputFound domOutcome

/-! ## Claim C6 -/

/-- C6 (confirmed): whenever the scripted-injection path reports not-ready
or its send call throws, `reply_to_current_chat` falls through to the DOM
fallback without surfacing an error, and the fallback's own success or
failure is exactly the result returned to the caller (a failure is the
returned `False`, surfaced only when the fallback itself fails). -/
theorem wpp_failure_falls_back_to_dom (useWpp pagePresent wppReady : Bool)
    (wppEval : Except Unit Bool) (inputFound : Bool)
    (domOutcome : Except Unit Unit)
    (h : wppReady = false ∨ wppEval = .error ()) :
    reply_to_current_chat useWpp pagePresent wppReady wppEval inputFound
        domOutcome =
      domFallbackSend inputFound domOutcome := by
  have hwpp : _send_text_via_wpp pagePresent wppReady wppEval = false := by
    rcases h with h | h
    · subst h
      cases pagePresent <;> simp [_send_text_via_wpp]
    · subst h
      cases pagePresent <;> cases wppReady <;> simp [_send_text_via_wpp]
  simp [reply_to_current_chat, hwpp]

/-- Witness for C6: with the library not ready and the input box found, the
result is the DOM fallback's own success. -/
theorem wpp_failure_falls_back_to_dom_witness :
    ((false : Bool) = false ∨ (Except.ok true : Except Unit Bool) = .error ()) ∧
    reply_to_current_chat true true false (.ok true) true (.ok ()) =
      domFallbackSend true (.ok ()) :=
  ⟨Or.inl rfl,
    wpp_failure_falls_back_to_dom true true false (.ok true) true (.ok ())
      (Or.inl rfl)⟩

/-! ## Claim C7 -/

/-- One keyboard action of the DOM typing loop (src/main.py:949-957). -/
inductive KeyAction where
  | typeText (line : String)
  | pressShiftEnter
  | pressEnter
  deriving DecidableEq

/-- The keystrokes of the loop
`for idx, line in enumerate(lines): type(line); if idx < len(lines) - 1: press("Shift+Enter")`
(src/main.py:950-954). -/
def typeLines : List String → List KeyAction
  | [] => []
  | [l] => [.typeText l]
  | l :: ls => .typeText l :: .pressShiftEnter :: typeLines ls

/-- The full keystroke sequence the DOM fallback issues for a message:
split on `"\n"`, type line by line with a soft newline between lines, then
one final submit keypress (src/main.py:949-957). -/
def domTypeTrace (message : String) : List KeyAction :=
  typeLines (pySplit '\n' message) ++ [.pressEnter]

theorem typeLines_count_shiftEnter (ls : List String) :
    (typeLines ls).count .pressShiftEnter = ls.length - 1 := by
  induction ls with
  | nil => rfl
  | cons l ls ih =>
    cases ls with
    | nil => rfl
    | cons l2 ls2 =>
      have : typeLines (l :: l2 :: ls2) =
          .typeText l :: .pressShiftEnter :: typeLines (l2 :: ls2) := rfl
      rw [this]
      simp only [List.count_cons, ih]
      simp [List.length_cons]

theorem typeLines_count_enter (ls : List String) :
    (typeLines ls).count .pressEnter = 0 := by
  induction ls with
  | nil => rfl
  | cons l ls ih =>
    cases ls with
    | nil => rfl
    | cons l2 ls2 =>
      have : typeLines (l :: l2 :: ls2) =
          .typeText l :: .pressShiftEnter :: typeLines (l2 :: ls2) := rfl
      rw [this]
      simp [List.count_cons, ih]

/-- C7 (confirmed): for any message of n newline-separated lines, the DOM
fallback issues exactly n-1 soft-newline (`Shift+Enter`) keypresses and
exactly one submit (`Enter`) keypress, the submit coming last; in
particular `"a\nb\nc"` produces type/soft-newline/type/soft-newline/type
followed by the single submit. -/
theorem dom_multiline_keypresses (message : String) :
    (domTypeTrace message).count .pressShiftEnter =
        (pySplit '\n' message).length - 1 ∧
    (domTypeTrace message).count .pressEnter = 1 ∧
    (domTypeTrace message).getLast? = some .pressEnter ∧
    domTypeTrace "a\nb\nc" =
      [.typeText "a", .pressShiftEnter, .typeText "b", .pressShiftEnter,
        .typeText "c", .pressEnter] := by
  refine ⟨?_, ?_, ?_, by decide⟩
  · rw [domTypeTrace, List.count_append, typeLines_count_shiftEnter]
    rfl
  · rw [domTypeTrace, List.count_append, typeLines_count_enter]
    rfl
  · rw [domTypeTrace]
    simp

/-! ## generate_response_for_payload (src/main.py:364-467)

The agent kernel collaborator (kernel.py) and the outbound media send are
external to this core and appear as parameters.  `run`,
`transcribe_audio` and `extract_document_text` return strings (empty on
failure, per kernel.py); `generate_image` and `generate_speech` return
bytes or `None`.  `extract_image_prompt` stands for the pure helper
`_extract_image_prompt` (src/main.py:265-290, a regex scan whose internals
no claim depends on), `send_media` for the outcome of
`send_media_to_current_chat`, and `temp_path` for the path
`_write_temp_file` returns. -/

structure GenEnv where
  run : String → String
  run_with_vision : List Nat → String → String
  transcribe_audio : List Nat → String
  extract_document_text : List Nat → String → String → String
  generate_image : String → Option (List Nat)
  generate_speech : String → Option (List Nat)
  extract_image_prompt : String → Option String
  send_media : Bool
  temp_path : List Nat → String → String

/-- Response plus the file paths successfully sent into the chat by
`send_media_to_current_chat` during generation. -/
structure GenResult where
  response : String
  mediaSent : List String
  deriving DecidableEq

/-- `msg_text.split(" ", 1)[1].strip() if " " in msg_text else ""`
(src/main.py:380, 405). -/
def commandArg (msg_text : String) : String :=
  match splitFirstChar ' ' msg_text.data with
  | some (_, rest) => pyStrip (String.mk rest)
  | none => ""

/-- The image-generation tail shared by the `/image` command and the
image-prompt branch (src/main.py:383-390, 395-402): a falsy result is
reported as a failure notice; otherwise the image is written to a temp file
and sent, with a second notice if the send fails. -/
def imageCommandResult (env : GenEnv) (prompt : String) : GenResult :=
  match env.generate_image prompt with
  | none => ⟨"Image generation failed or IMAGE_MODEL not configured.", []⟩
  | some img =>
    if img.isEmpty then
      ⟨"Image generation failed or IMAGE_MODEL not configured.", []⟩
    else if env.send_media then ⟨"", [env.temp_path img ".png"]⟩
    else ⟨"I generated the image but couldn't send it here.", []⟩

/-- The speech-generation tail of the `/voice`//`/audio` command
(src/main.py:408-415). -/
def voiceCommandResult (env : GenEnv) (speechText : String) : GenResult :=
  match env.generate_speech speechText with
  | none => ⟨"Audio generation failed or TTS_MODEL not configured.", []⟩
  | some audio =>
    if audio.isEmpty then
      ⟨"Audio generation failed or TTS_MODEL not configured.", []⟩
    else if env.send_media then ⟨"", [env.temp_path audio ".mp3"]⟩
    else ⟨"I generated the audio but couldn't send it here.", []⟩

/-- `doc_name or 'document'` with Python truthiness. -/
def docNameOr (doc_name : Option String) : String :=
  match doc_name with
  | some n => if n ≠ "" then n else "document"
  | none => "document"

/-- Embedding of `generate_response_for_payload` (src/main.py:364-467),
with the control flow of the source: slash commands and the image-prompt
scan on non-empty text first (each returns), then the media branches, then
plain text through `kernel.run`. -/
def generate_response_for_payload (env : GenEnv) (msg_text : String)
    (media_type : String) (image_bytes audio_bytes doc_bytes : Option (List Nat))
    (doc_name doc_mime : Option String) : GenResult :=
  if msg_text ≠ "" ∧
      (pyStartsWith (pyLower (pyStrip msg_text)) "/image" ||
        pyStartsWith (pyLower (pyStrip msg_text)) "/img") = true then
    if commandArg msg_text = "" then ⟨"Usage: /image <prompt>", []⟩
    else imageCommandResult env (commandArg msg_text)
  else if msg_text ≠ "" ∧ (env.extract_image_prompt msg_text).isSome then
    imageCommandResult env
      (if (env.extract_image_prompt msg_text).getD "" = "" then msg_text
        else (env.extract_image_prompt msg_text).getD "")
  else if msg_text ≠ "" ∧
      (pyStartsWith (pyLower (pyStrip msg_text)) "/voice" ||
        pyStartsWith (pyLower (pyStrip msg_text)) "/audio") = true then
    if commandArg msg_text = "" then ⟨"Usage: /voice <text>", []⟩
    else voiceCommandResult env (commandArg msg_text)
  else if media_type = "audio" then
    match audio_bytes with
    | none =>
      ⟨"I received a voice note, but I couldn't extract the audio from WhatsApp Web. Please resend it as text.", []⟩
    | some b =>
      if b.isEmpty then
        ⟨"I received a voice note, but I couldn't extract the audio from WhatsApp Web. Please resend it as text.", []⟩
      else if env.transcribe_audio b = "" then
        ⟨"I received a voice note, but I couldn't transcribe it.", []⟩
      else
        ⟨env.run ("User sent a voice note. Transcript:\n" ++
          env.transcribe_audio b ++ "\n\nReply to the user."), []⟩
  else if media_type = "image" then
    match image_bytes with
    | none =>
      ⟨"I received an image, but I couldn't extract it from WhatsApp Web. Please resend it or add a text description.", []⟩
    | some b =>
      if b.isEmpty then
        ⟨"I received an image, but I couldn't extract it from WhatsApp Web. Please resend it or add a text description.", []⟩
      else
        ⟨env.run_with_vision b
          ("Describe the image and respond to the user. Be concise and helpful.\n" ++
            (if msg_text ≠ "" then "Caption: " ++ msg_text ++ "\n" else "")), []⟩
  else if media_type = "document" then
    match doc_bytes with
    | none =>
      ⟨"I received a document, but I couldn't extract it from WhatsApp Web. Please resend it or add a text description.", []⟩
    | some b =>
      if b.isEmpty then
        ⟨"I received a document, but I couldn't extract it from WhatsApp Web. Please resend it or add a text description.", []⟩
      else if env.extract_document_text b (doc_name.getD "") (doc_mime.getD "") = "" then
        ⟨"I received the document but couldn't parse it.", []⟩
      else
        ⟨env.run ("User sent a document named '" ++ docNameOr doc_name ++
          "'.\nExtracted text:\n" ++
          env.extract_document_text b (doc_name.getD "") (doc_mime.getD "") ++
          "\n\nUser request: " ++
          (if msg_text ≠ "" then msg_text else "Summarize the document for me.") ++
          "\nReply concisely and helpfully."), []⟩
  else if msg_text = "" then ⟨"", []⟩
  else ⟨env.run msg_text, []⟩

/-- The delivery decision of both callers,
`if response and response.strip(): await reply_to_current_chat(response)`
(src/main.py:803-804, 918-919). -/
def shouldDeliver (response : String) : Bool :=
  if response ≠ "" ∧ pyStrip response ≠ "" then true else false

/-- A concrete kernel environment in which every collaborator fails: `run`,
`run_with_vision`, `transcribe_audio` and `extract_document_text` return
empty strings, `generate_image` and `generate_speech` return `None`. -/
def envAllFail : GenEnv :=
  { run := fun _ => "", run_with_vision := fun _ _ => "",
    transcribe_audio := fun _ => "", extract_document_text := fun _ _ _ => "",
    generate_image := fun _ => none, generate_speech := fun _ => none,
    extract_image_prompt := fun _ => none, send_media := false,
    temp_path := fun _ s => s }

/-! ## Claim C9 -/

/-- C9 (counterexample): a failing collaborator is *not* always treated as
"nothing to send".  For the message `"/image cat"` with
`generate_image` returning `None`, the core returns the non-empty failure
notice, and the caller's delivery check sends it into the chat. -/
theorem kernel_failure_notice_delivered :
    (generate_response_for_payload envAllFail "/image cat" "text" none none
        none none none).response =
      "Image generation failed or IMAGE_MODEL not configured." ∧
    shouldDeliver
      (generate_response_for_payload envAllFail "/image cat" "text" none none
        none none none).response = true := by
  decide

/-- C9 (amended): only the reasoning collaborators are treated as "nothing
to send": when `run`/`run_with_vision` return empty, no reply is delivered
and nothing was sent (conjuncts 1-3); the media collaborators instead
produce fixed failure-notice replies which *are* delivered — proven here
for `transcribe_audio` (conjunct 4, src/main.py:425),
`extract_document_text` (conjunct 5, src/main.py:455) and `generate_speech`
(conjunct 6, src/main.py:410), and for `generate_image` by the
counterexample (src/main.py:385).  In every case the result is an ordinary
return value — no error propagates. -/
theorem kernel_empty_result_nothing_to_send (env : GenEnv) (t : String)
    (b : List Nat)
    (hip : env.extract_image_prompt t = none)
    (h1 : pyStartsWith (pyLower (pyStrip t)) "/image" = false)
    (h2 : pyStartsWith (pyLower (pyStrip t)) "/img" = false)
    (h3 : pyStartsWith (pyLower (pyStrip t)) "/voice" = false)
    (h4 : pyStartsWith (pyLower (pyStrip t)) "/audio" = false)
    (hrun : ∀ s, env.run s = "")
    (hvis : ∀ v p, env.run_with_vision v p = "") :
    (shouldDeliver (generate_response_for_payload env t "text" none none none
        none none).response = false ∧
      (generate_response_for_payload env t "text" none none none none
        none).mediaSent = []) ∧
    (b ≠ [] → env.transcribe_audio b ≠ "" →
      shouldDeliver (generate_response_for_payload env "" "audio" none
        (some b) none none none).response = false) ∧
    (b ≠ [] →
      shouldDeliver (generate_response_for_payload env "" "image" (some b)
        none none none none).response = false) ∧
    (b ≠ [] → env.transcribe_audio b = "" →
      ((generate_response_for_payload env "" "audio" none (some b) none none
          none).response =
        "I received a voice note, but I couldn't transcribe it." ∧
       shouldDeliver (generate_response_for_payload env "" "audio" none
          (some b) none none none).response = true)) ∧
    (b ≠ [] → env.extract_document_text b "" "" = "" →
      ((generate_response_for_payload env "" "document" none none (some b)
          none none).response =
        "I received the document but couldn't parse it." ∧
       shouldDeliver (generate_response_for_payload env "" "document" none
          none (some b) none none).response = true)) ∧
    (env.extract_image_prompt "/voice hello" = none →
      env.generate_speech "hello" = none →
      ((generate_response_for_payload env "/voice hello" "text" none none
          none none none).response =
        "Audio generation failed or TTS_MODEL not configured." ∧
       shouldDeliver (generate_response_for_payload env "/voice hello" "text"
          none none none none none).response = true)) := by
  refine ⟨?_, ?_, ?_, ?_, ?_, ?_⟩
  · by_cases ht : t = ""
    · subst ht
      constructor <;> rfl
    · have hgen : generate_response_for_payload env t "text" none none none
          none none = ⟨env.run t, []⟩ := by
        rw [generate_response_for_payload]
        rw [if_neg (by simp [h1, h2]), if_neg (by simp [hip]),
          if_neg (by simp [h3, h4]), if_neg (by decide), if_neg (by decide),
          if_neg (by decide), if_neg (by simpa using ht)]
      rw [hgen, hrun t]
      constructor <;> rfl
  · intro hb htr
    have hgen : generate_response_for_payload env "" "audio" none (some b)
        none none none = ⟨env.run ("User sent a voice note. Transcript:\n" ++
          env.transcribe_audio b ++ "\n\nReply to the user."), []⟩ := by
      rw [generate_response_for_payload]
      rw [if_neg (by simp), if_neg (by simp), if_neg (by simp),
        if_pos (by decide)]
      rw [if_neg (by simpa using hb), if_neg htr]
    rw [hgen, hrun]
    rfl
  · intro hb
    have hgen : generate_response_for_payload env "" "image" (some b) none
        none none none =
        ⟨env.run_with_vision b
          "Describe the image and respond to the user. Be concise and helpful.\n",
          []⟩ := by
      rw [generate_response_for_payload]
      rw [if_neg (by simp), if_neg (by simp), if_neg (by simp),
        if_neg (by decide), if_pos (by decide)]
      rw [if_neg (by simpa using hb)]
      simp
    rw [hgen, hvis]
    rfl
  · intro hb htr
    have hgen : generate_response_for_payload env "" "audio" none (some b)
        none none none =
        ⟨"I received a voice note, but I couldn't transcribe it.", []⟩ := by
      rw [generate_response_for_payload]
      rw [if_neg (by simp), if_neg (by simp), if_neg (by simp),
        if_pos (by decide)]
      rw [if_neg (by simpa using hb), if_pos htr]
    rw [hgen]
    exact ⟨rfl, rfl⟩
  · intro hb hdoc
    have hd : env.extract_document_text b ((none : Option String).getD "")
        ((none : Option String).getD "") = "" := hdoc
    have hgen : generate_response_for_payload env "" "document" none none
        (some b) none none =
        ⟨"I received the document but couldn't parse it.", []⟩ := by
      rw [generate_response_for_payload]
      rw [if_neg (by simp), if_neg (by simp), if_neg (by simp),
        if_neg (by decide), if_neg (by decide), if_pos (by decide)]
      rw [if_neg (by simpa using hb), if_pos hd]
    rw [hgen]
    exact ⟨rfl, rfl⟩
  · intro hip2 hspeech
    have hca : commandArg "/voice hello" = "hello" := rfl
    have hgen : generate_response_for_payload env "/voice hello" "text" none
        none none none none =
        ⟨"Audio generation failed or TTS_MODEL not configured.", []⟩ := by
      rw [generate_response_for_payload]
      rw [if_neg (by decide), if_neg (by simp [hip2]), if_pos (by decide),
        if_neg (by decide)]
      unfold voiceCommandResult
      rw [hca, hspeech]
    rw [hgen]
    exact ⟨rfl, rfl⟩

/-- Witness for the amended C9 at a concrete kernel whose `run` and
`run_with_vision` return empty on the plain message `"hi"`. -/
theorem kernel_empty_result_nothing_to_send_witness :
    (envAllFail.extract_image_prompt "hi" = none ∧
      pyStartsWith (pyLower (pyStrip "hi")) "/image" = false ∧
      pyStartsWith (pyLower (pyStrip "hi")) "/img" = false ∧
      pyStartsWith (pyLower (pyStrip "hi")) "/voice" = false ∧
      pyStartsWith (pyLower (pyStrip "hi")) "/audio" = false ∧
      (∀ s, envAllFail.run s = "") ∧ (∀ v p, envAllFail.run_with_vision v p = "")) ∧
    shouldDeliver (generate_response_for_payload envAllFail "hi" "text" none
      none none none none).response = false :=
  ⟨⟨rfl, by decide, by decide, by decide, by decide, fun _ => rfl,
      fun _ _ => rfl⟩,
    (kernel_empty_result_nothing_to_send envAllFail "hi" [1] rfl (by decide)
        (by decide) (by decide) (by decide) (fun _ => rfl)
        (fun _ _ => rfl)).1.1⟩

end AIEmployee
